import Mathlib

/-!
Shallow embedding of the render orchestration and scale-compensation
subsystem of `src/src/render_context.rs` (struct `RenderContext` and its
methods), together with the small slices of its collaborators (`glam`
vector/matrix math, the egui context, the custom egui render routine, the
rend3 renderer handle arena) that the methods observe.  All `f32`
arithmetic is modelled exactly over `ℚ`; non-finite float results
(division by a zero `w` in `project_point3`) are modelled as `none`.
-/

namespace Blackjack

/-- Two-dimensional vector with exact rational components, standing in for
`glam::Vec2` / `egui::Vec2` (`f32` components modelled as rationals). -/
structure Vec2 where
  x : ℚ
  y : ℚ
deriving DecidableEq

/-- Componentwise scaling `v * k`, as in glam's `Vec2 * f32`. -/
def Vec2.smul (v : Vec2) (k : ℚ) : Vec2 :=
  ⟨v.x * k, v.y * k⟩

/-- Three-dimensional vector, standing in for `glam::Vec3`. -/
structure Vec3 where
  x : ℚ
  y : ℚ
  z : ℚ
deriving DecidableEq

/-- Four-dimensional vector, standing in for `glam::Vec4`. -/
structure Vec4 where
  x : ℚ
  y : ℚ
  z : ℚ
  w : ℚ
deriving DecidableEq

/-- Column-major four-by-four matrix, standing in for `glam::Mat4`. -/
structure Mat4 where
  col0 : Vec4
  col1 : Vec4
  col2 : Vec4
  col3 : Vec4
deriving DecidableEq

/-- Matrix-vector product, as in glam's `Mat4::mul_vec4`:
the columns weighted by the components of `v`. -/
def Mat4.mulVec4 (m : Mat4) (v : Vec4) : Vec4 :=
  ⟨m.col0.x * v.x + m.col1.x * v.y + m.col2.x * v.z + m.col3.x * v.w,
   m.col0.y * v.x + m.col1.y * v.y + m.col2.y * v.z + m.col3.y * v.w,
   m.col0.z * v.x + m.col1.z * v.y + m.col2.z * v.z + m.col3.z * v.w,
   m.col0.w * v.x + m.col1.w * v.y + m.col2.w * v.z + m.col3.w * v.w⟩

/-- Matrix product `a * b`, column by column, as in glam. -/
def Mat4.mul (a b : Mat4) : Mat4 :=
  ⟨a.mulVec4 b.col0, a.mulVec4 b.col1, a.mulVec4 b.col2, a.mulVec4 b.col3⟩

/-- Identity matrix, `glam::Mat4::IDENTITY`. -/
def Mat4.identity : Mat4 :=
  ⟨⟨1, 0, 0, 0⟩, ⟨0, 1, 0, 0⟩, ⟨0, 0, 1, 0⟩, ⟨0, 0, 0, 1⟩⟩

/-- glam's `Mat4::project_point3`: extend the point with `w = 1`, multiply,
and divide the result by its `w` component.  When `w = 0` the `f32` code
divides by zero and yields non-finite components (NaN / infinity); this is
modelled as `none`. -/
def Mat4.projectPoint3 (m : Mat4) (p : Vec3) : Option Vec3 :=
  let r := m.mulVec4 ⟨p.x, p.y, p.z, 1⟩
  if r.w = 0 then none else some ⟨r.x / r.w, r.y / r.w, r.z / r.w⟩

/-- Rust's `expr as u32` cast applied to a nonnegative-or-negative `f32`:
truncation toward zero, saturating at `0` below and at `2^32 - 1` above.
For values in range this is the floor clamped at zero, which is what
`Int.toNat ∘ Int.floor` computes. -/
def ratToU32 (q : ℚ) : ℕ :=
  min (Int.toNat ⌊q⌋) (2 ^ 32 - 1)

/-- The local closure `to_uvec2` in `render_frame`: cast both components
of an `egui::Vec2` with `as u32`. -/
def to_uvec2 (v : Vec2) : ℕ × ℕ :=
  (ratToU32 v.x, ratToU32 v.y)

/-- An `egui::Rect`, given by its two corners in UI points. -/
structure Rect where
  min : Vec2
  max : Vec2
deriving DecidableEq

/-- egui `Rect::width`. -/
def Rect.width (r : Rect) : ℚ :=
  r.max.x - r.min.x

/-- egui `Rect::height`. -/
def Rect.height (r : Rect) : ℚ :=
  r.max.y - r.min.y

/-- egui `Rect::size`. -/
def Rect.size (r : Rect) : Vec2 :=
  ⟨r.width, r.height⟩

/-- Modelled from the spec: a viewport entry of `AppViewports` (the file
`graph/graph_editor_egui/viewport_manager.rs` is not under `src/`);
`render_frame` only reads its rectangle (`.rect`), the per-frame
"position+size in UI points" of spec section 3. -/
structure Viewport where
  rect : Rect
deriving DecidableEq

/-- Modelled from the spec: the externally supplied per-frame viewport
layout, with one rectangle for the 3D viewport (`view_3d`) and one for the
nested node-graph viewport (`node_graph`). -/
structure AppViewports where
  view_3d : Viewport
  node_graph : Viewport
deriving DecidableEq

/-- The wgpu texture formats this subsystem mentions. -/
inductive TextureFormat where
  | Bgra8UnormSrgb
  | Bgra8Unorm
  | Rgba8UnormSrgb
  | Rgba8Unorm
deriving DecidableEq

/-- The wgpu presentation modes this subsystem mentions. -/
inductive PresentMode where
  | Mailbox
  | Fifo
  | Immediate
deriving DecidableEq

/-- Observable result of `rend3::configure_surface`: the format, physical
size and present mode the output surface is configured with. -/
structure SurfaceConfig where
  format : TextureFormat
  size : ℕ × ℕ
  present_mode : PresentMode
deriving DecidableEq

/-- The `rend3::configure_surface` call, reduced to the configuration it
stores on the surface. -/
def configure_surface (format : TextureFormat) (size : ℕ × ℕ)
    (mode : PresentMode) : SurfaceConfig :=
  ⟨format, size, mode⟩

/-- A `rend3::types::Mesh` value object.  Its geometry buffers are never
examined by this subsystem, so the payload is abstracted to a token. -/
structure Mesh where
  id : ℕ
deriving DecidableEq

/-- The slice of `rend3::types::PbrMaterial` this subsystem sets: the
albedo value.  All remaining fields are taken from `Default::default()`
and never observed here, so they are omitted. -/
structure PbrMaterial where
  albedo : Vec4
deriving DecidableEq

/-- A `rend3::types::Object`: mesh handle, material handle and world
transform.  Handles are modelled as arena indices (naturals). -/
structure RObject where
  mesh : ℕ
  material : ℕ
  transform : Mat4
deriving DecidableEq

/-- A `rend3::types::DirectionalLight` value object; its fields are never
examined by this subsystem, so the payload is abstracted to a token. -/
structure DirectionalLight where
  id : ℕ
deriving DecidableEq

/-- The camera data stored by `Renderer::set_camera_data`: the fixed
perspective projection parameters (`vfov`, `near`) and the view matrix. -/
structure Camera where
  vfov : ℚ
  near : ℚ
  view : Mat4
deriving DecidableEq

/-- The slice of the `rend3::Renderer` state this subsystem reads or
writes: the camera aspect (source field name `aspect_ratio`), the camera
data, and the arenas of uploaded meshes, materials, objects and
directional lights.  `add_*` issues handles as consecutive arena indices;
this models rend3's opaque `ResourceHandle` issuance. -/
structure Renderer where
  aspect : ℚ
  camera : Camera
  meshes : List Mesh
  materials : List PbrMaterial
  objects : List RObject
  lights : List DirectionalLight
deriving DecidableEq

/-- `Renderer::add_mesh`: upload a mesh, returning its fresh handle. -/
def Renderer.add_mesh (r : Renderer) (m : Mesh) : ℕ × Renderer :=
  (r.meshes.length, { r with meshes := r.meshes ++ [m] })

/-- `Renderer::add_material`: upload a material, returning its handle. -/
def Renderer.add_material (r : Renderer) (m : PbrMaterial) : ℕ × Renderer :=
  (r.materials.length, { r with materials := r.materials ++ [m] })

/-- `Renderer::add_object`: register an object, returning its handle. -/
def Renderer.add_object (r : Renderer) (o : RObject) : ℕ × Renderer :=
  (r.objects.length, { r with objects := r.objects ++ [o] })

/-- `Renderer::add_directional_light`: append a light, returning its
handle. -/
def Renderer.add_directional_light (r : Renderer) (l : DirectionalLight) :
    ℕ × Renderer :=
  (r.lights.length, { r with lights := r.lights ++ [l] })

/-- `Renderer::set_aspect_ratio` (renamed `set_aspect` here because of the
field's name): replace the camera aspect. -/
def Renderer.set_aspect (r : Renderer) (a : ℚ) : Renderer :=
  { r with aspect := a }

/-- `Renderer::set_camera_data`: replace the camera data. -/
def Renderer.set_camera_data (r : Renderer) (c : Camera) : Renderer :=
  { r with camera := c }

/-- State of an `egui::Context` as used by `render_frame`.
`pixels_per_point` is the scale fixed at the start of the frame and used
when the frame's shapes are tessellated; `Context::set_pixels_per_point`
only stages `pending_pixels_per_point`, which takes effect at the next
frame start.  This lag is documented by the comment inside `render_frame`
(src/src/render_context.rs lines 242-245): "Calling set_pixels_per_point
like I'm doing below has a 1 frame of lag.  Instead, we need to hijack the
raw_input so that the value is set ... at the start of the frame." -/
structure EguiContext where
  pixels_per_point : ℚ
  pending_pixels_per_point : ℚ
deriving DecidableEq

/-- `egui::Context::set_pixels_per_point`: stage a new scale, effective at
the next frame start (see the lag comment on `EguiContext`). -/
def EguiContext.set_pixels_per_point (c : EguiContext) (v : ℚ) :
    EguiContext :=
  { c with pending_pixels_per_point := v }

/-- Frame start of an egui context: the staged scale becomes the active
one used for layout and tessellation. -/
def EguiContext.begin_frame (c : EguiContext) : EguiContext :=
  { c with pixels_per_point := c.pending_pixels_per_point }

/-- `egui::Context::tessellate` converts the frame's shapes to meshes at
the scale fixed at frame start; only that scale (the claim-relevant
observable of the produced primitives) is recorded. -/
def EguiContext.tessellate (c : EguiContext) : ℚ :=
  c.pixels_per_point

/-- An `egui_winit_platform::Platform`, reduced to the egui context it
owns (the only state `render_frame` interacts with). -/
structure Platform where
  context : EguiContext
deriving DecidableEq

/-- Modelled from the spec: the screen-size state of
`EguiCustomRoutine` (file `rendergraph/egui_routine_custom.rs`, not under
`src/`), set by `resize(width, height, scale_factor)`. -/
structure EguiRoutineState where
  screen_width : ℕ
  screen_height : ℕ
  scale_factor : ℚ
deriving DecidableEq

/-- `EguiCustomRoutine::resize`: replace the routine's screen-size
descriptor. -/
def EguiRoutineState.resize (_r : EguiRoutineState) (w h : ℕ) (scale : ℚ) :
    EguiRoutineState :=
  ⟨w, h, scale⟩

/-- Modelled from the spec: `EguiCustomRoutine::add_sub_ui_to_graph` (not
under `src/`) receives the zoom level and, per spec section 4.3 step 3,
applies it as the clip-rectangle correction factor when clipping the
sub-UI draw calls into their destination region.  The returned value is
that factor. -/
def EguiRoutineState.add_sub_ui_to_graph (_r : EguiRoutineState)
    (zoom_level : ℚ) : ℚ :=
  zoom_level

/-- glam's `Mat4::perspective_infinite_reverse_lh`, used by rend3 for
`CameraProjection::Perspective { vfov, near }`.  The parameter `f` is the
cotangent of the half field-of-view (for `vfov = 60` degrees its true
value is the irrational `√3`, so it is kept symbolic; no settled claim
depends on its value). -/
def perspective_infinite_reverse_lh (f a near : ℚ) : Mat4 :=
  ⟨⟨f / a, 0, 0, 0⟩, ⟨0, f, 0, 0⟩, ⟨0, 0, 0, 1⟩, ⟨0, 0, near, 0⟩⟩

/-- rend3 `CameraManager::view_proj`: the projection matrix built from the
stored perspective parameters and the current aspect, times the view
matrix. -/
def Renderer.view_proj (r : Renderer) (f : ℚ) : Mat4 :=
  (perspective_infinite_reverse_lh f r.aspect r.camera.near).mul
    r.camera.view

/-- The `RenderContext` of `src/src/render_context.rs`, restricted to the
state its methods observe or mutate: the renderer slice, the two egui
routine states, the output-surface configuration and format, and the two
registry handle lists (`objects`, `lights`).  The pipeline objects
(`base_graph`, `pbr_routine`, `tonemapping_routine`, `grid_routine`) hold
no state any method reads or writes and are omitted. -/
structure RenderContext where
  renderer : Renderer
  main_egui_routine : EguiRoutineState
  graph_egui_routine : EguiRoutineState
  surface_config : SurfaceConfig
  texture_format : TextureFormat
  objects : List ℕ
  lights : List ℕ
deriving DecidableEq

/-- `RenderContext::clear_objects` (lines 113-115): `self.objects.clear()`. -/
def RenderContext.clear_objects (s : RenderContext) : RenderContext :=
  { s with objects := [] }

/-- The material literal built inside `add_mesh_as_object` (lines
119-122): albedo value `(0.8, 0.1, 0.1, 1.0)`, every other field from
`Default::default()`. -/
def default_red_material : PbrMaterial :=
  ⟨⟨4 / 5, 1 / 10, 1 / 10, 1⟩⟩

/-- `RenderContext::add_mesh_as_object` (lines 117-130): upload the mesh,
upload the albedo-only material, register an object with identity
transform, and push the object handle onto `self.objects`.  The Rust
function's return type is `()`; the unit payload is made explicit. -/
def RenderContext.add_mesh_as_object (s : RenderContext) (mesh : Mesh) :
    RenderContext × Unit :=
  let mh := s.renderer.add_mesh mesh
  let math := mh.2.add_material default_red_material
  let object : RObject :=
    { mesh := mh.1, material := math.1, transform := Mat4.identity }
  let oh := math.2.add_object object
  ({ s with renderer := oh.2, objects := s.objects ++ [oh.1] }, ())

/-- `RenderContext::add_object` (lines 132-134). -/
def RenderContext.add_object (s : RenderContext) (object : RObject) :
    RenderContext :=
  let oh := s.renderer.add_object object
  { s with renderer := oh.2, objects := s.objects ++ [oh.1] }

/-- `RenderContext::set_camera` (lines 136-144): store the view matrix
with the fixed perspective parameters `vfov = 60.0`, `near = 0.1`. -/
def RenderContext.set_camera (s : RenderContext) (view_matrix : Mat4) :
    RenderContext :=
  { s with
    renderer := s.renderer.set_camera_data
      { vfov := 60, near := 1 / 10, view := view_matrix } }

/-- `RenderContext::project_point` (lines 146-153): project the world
point through `view_proj`, flip the sign of the clip-space `y`, map
`[-1, 1]` to `[0, 1]` and scale by the screen size.  The method takes
`&self` and mutates nothing.  `f` is the symbolic half-fov cotangent fed
to the projection matrix (see `perspective_infinite_reverse_lh`). -/
def RenderContext.project_point (s : RenderContext) (f : ℚ) (point : Vec3)
    (screen_size : Vec2) : Option Vec2 :=
  match (s.renderer.view_proj f).projectPoint3 point with
  | none => none
  | some clip =>
    let clip2 : Vec2 := ⟨clip.x, -clip.y⟩
    let zero_to_one : Vec2 := ⟨(clip2.x + 1) * (1 / 2), (clip2.y + 1) * (1 / 2)⟩
    some ⟨zero_to_one.x * screen_size.x, zero_to_one.y * screen_size.y⟩

/-- `RenderContext::add_light` (lines 155-158). -/
def RenderContext.add_light (s : RenderContext) (light : DirectionalLight) :
    RenderContext :=
  let lh := s.renderer.add_directional_light light
  { s with renderer := lh.2, lights := s.lights ++ [lh.1] }

/-- Per-frame observables produced by one `render_frame` call: the aspect
fed to the camera, the 3D viewport resolution, the arguments of the
`graph_egui_routine.resize` call, the scale reported to the nested
context (the argument of `set_pixels_per_point`), the off-screen render
target descriptor of the nested UI, the scales at which the two egui
contexts tessellated this frame's primitives, and the clip-rectangle
correction factor passed to `add_sub_ui_to_graph`. -/
structure Frame where
  aspect_set : ℚ
  viewport_resolution : ℕ × ℕ
  graph_routine_size : ℕ × ℕ
  graph_routine_scale : ℚ
  reported_scale : ℚ
  graph_target_resolution : ℕ × ℕ
  graph_target_format : TextureFormat
  graph_tessellation_scale : ℚ
  main_tessellation_scale : ℚ
  clip_correction : ℚ
deriving DecidableEq

/-- `RenderContext::render_frame` (lines 160-307), in program order:
read the two viewport rectangles; set the camera aspect to the 3D
viewport's `width / height`; declare the 3D viewport target at
`vwp_3d_res * pixels_per_point`; resize the graph egui routine to
`(node_graph_size * zoom_level * ppp) as u32` with scale factor `1.0`;
call `set_pixels_per_point(1.0 / zoom_level)` on the nested context;
declare the nested UI off-screen target at `(grph_3d_res * ppp) as u32`
in `Bgra8UnormSrgb`; end and tessellate the nested frame, then add its
draw pass with `zoom_level` as the clip correction; end and tessellate
the main frame; execute the graph.  `end_frame` and `graph.execute`
change none of the modelled state; tessellation is recorded through the
scale it used. -/
def RenderContext.render_frame (s : RenderContext)
    (main_egui graph_egui : Platform) (app_viewports : AppViewports)
    (zoom_level : ℚ) : RenderContext × Platform × Platform × Frame :=
  let vwp_3d_res := app_viewports.view_3d.rect.size
  let grph_3d_res := app_viewports.node_graph.rect.size
  let renderer1 := s.renderer.set_aspect (vwp_3d_res.x / vwp_3d_res.y)
  let viewport_resolution :=
    to_uvec2 (vwp_3d_res.smul main_egui.context.pixels_per_point)
  let ppp := main_egui.context.pixels_per_point
  let graph_routine1 := s.graph_egui_routine.resize
    (ratToU32 (app_viewports.node_graph.rect.width * zoom_level * ppp))
    (ratToU32 (app_viewports.node_graph.rect.height * zoom_level * ppp))
    1
  let graph_ctx1 := graph_egui.context.set_pixels_per_point (1 / zoom_level)
  let graph_target_resolution := to_uvec2 (grph_3d_res.smul ppp)
  let graph_tessellation_scale := graph_ctx1.tessellate
  let clip_correction := graph_routine1.add_sub_ui_to_graph zoom_level
  let main_tessellation_scale := main_egui.context.tessellate
  ({ s with renderer := renderer1, graph_egui_routine := graph_routine1 },
   main_egui,
   ⟨graph_ctx1⟩,
   { aspect_set := vwp_3d_res.x / vwp_3d_res.y
     viewport_resolution := viewport_resolution
     graph_routine_size := (graph_routine1.screen_width, graph_routine1.screen_height)
     graph_routine_scale := graph_routine1.scale_factor
     reported_scale := graph_ctx1.pending_pixels_per_point
     graph_target_resolution := graph_target_resolution
     graph_target_format := TextureFormat.Bgra8UnormSrgb
     graph_tessellation_scale := graph_tessellation_scale
     main_tessellation_scale := main_tessellation_scale
     clip_correction := clip_correction })

/-- `RenderContext::on_resize` (lines 309-319): reconfigure the surface
with the stored format, the new physical size and `PresentMode::Mailbox`,
then set the camera aspect to `width as f32 / height as f32 * 2.0`. -/
def RenderContext.on_resize (s : RenderContext) (width height : ℕ) :
    RenderContext :=
  { s with
    surface_config :=
      configure_surface s.texture_format (width, height) PresentMode.Mailbox
    renderer := s.renderer.set_aspect ((width : ℚ) / (height : ℚ) * 2) }

/-- The spec's resolution formula taken at its word: spec section 8
states `target_resolution == round(panel_size * pixels_per_point)`,
with round-to-nearest. -/
def graphTargetResolutionSpec (panel_size : Vec2) (ppp : ℚ) : ℤ × ℤ :=
  (round (panel_size.x * ppp), round (panel_size.y * ppp))

/-- A concrete `RenderContext` used to instantiate theorems. -/
def sampleCtx : RenderContext :=
  { renderer :=
      { aspect := 4 / 3
        camera := { vfov := 60, near := 1 / 10, view := Mat4.identity }
        meshes := []
        materials := []
        objects := []
        lights := [] }
    main_egui_routine := ⟨800, 600, 1⟩
    graph_egui_routine := ⟨800, 600, 1⟩
    surface_config := ⟨TextureFormat.Bgra8UnormSrgb, (800, 600), PresentMode.Mailbox⟩
    texture_format := TextureFormat.Bgra8UnormSrgb
    objects := []
    lights := [] }

/-- A second concrete `RenderContext` whose renderer already holds one
object, so the next issued object handle differs from `sampleCtx`'s. -/
def sampleCtx2 : RenderContext :=
  { sampleCtx with
    renderer :=
      { sampleCtx.renderer with
        objects := [{ mesh := 0, material := 0, transform := Mat4.identity }] } }

/-- A concrete platform whose context runs at the given active scale
(staged scale equal to the active one, as after an unchanged frame). -/
def samplePlatform (p : ℚ) : Platform :=
  ⟨⟨p, p⟩⟩

/-- A concrete viewport layout: both panels `800 x 600` points at the
origin. -/
def sampleViewports : AppViewports :=
  ⟨⟨⟨⟨0, 0⟩, ⟨800, 600⟩⟩⟩, ⟨⟨⟨0, 0⟩, ⟨800, 600⟩⟩⟩⟩

/-- A viewport layout whose node-graph panel is `400.5 x 600` points:
`400.5 * 1.0` truncates to `400` but rounds to `401`. -/
def cexViewports : AppViewports :=
  ⟨⟨⟨⟨0, 0⟩, ⟨800, 600⟩⟩⟩, ⟨⟨⟨0, 0⟩, ⟨801 / 2, 600⟩⟩⟩⟩

/-- Helper: evaluate the `as u32` cast at a rational lying in `[n, n+1)`
for an in-range natural `n`. -/
theorem ratToU32_eval (q : ℚ) (n : ℕ) (h1 : (n : ℚ) ≤ q) (h2 : q < n + 1)
    (h3 : n < 2 ^ 32) : ratToU32 q = n := by
  have hf : ⌊q⌋ = (n : ℤ) := by
    rw [Int.floor_eq_iff]
    push_cast
    exact ⟨h1, h2⟩
  rw [ratToU32, hf, Int.toNat_natCast]
  exact min_eq_left (Nat.le_pred_of_lt h3)

/-- Helper: with an identity view matrix, the world origin lies in the
camera plane, so its clip-space `w` is `0` for every half-fov cotangent
`f`, and `project_point` yields no finite result. -/
theorem project_point_origin_zero_w (s : RenderContext) (f : ℚ)
    (screen_size : Vec2) (hview : s.renderer.camera.view = Mat4.identity) :
    s.project_point f ⟨0, 0, 0⟩ screen_size = none := by
  simp [RenderContext.project_point, Renderer.view_proj, hview,
    perspective_infinite_reverse_lh, Mat4.mul, Mat4.mulVec4, Mat4.identity,
    Mat4.projectPoint3]

/-- C1 (amended): in `render_frame`, the off-screen render target declared
for the nested graph UI has resolution `node_graph_panel_size *
pixels_per_point` with each component cast `as u32` (truncation toward
zero, not round-to-nearest), and that resolution is independent of
`zoom_level`. -/
theorem graph_target_resolution_trunc_and_zoom_invariant
    (s : RenderContext) (main graph : Platform) (vp : AppViewports)
    (zoom zoom' : ℚ) (hz : 0 < zoom) (hz' : 0 < zoom')
    (hp : 0 < main.context.pixels_per_point) :
    (s.render_frame main graph vp zoom).2.2.2.graph_target_resolution
      = (ratToU32 (vp.node_graph.rect.size.x * main.context.pixels_per_point),
         ratToU32 (vp.node_graph.rect.size.y * main.context.pixels_per_point))
    ∧ (s.render_frame main graph vp zoom).2.2.2.graph_target_resolution
      = (s.render_frame main graph vp zoom').2.2.2.graph_target_resolution :=
  ⟨rfl, rfl⟩

/-- C1 witness: the spec's own scenario, panel `800 x 600`,
`pixels_per_point = 2`, checked at `zoom_level = 1` against `2`: both give
the target resolution `(1600, 1200)`. -/
theorem graph_target_resolution_trunc_and_zoom_invariant_witness :
    (0 : ℚ) < 1 ∧ (0 : ℚ) < 2
    ∧ (0 : ℚ) < (samplePlatform 2).context.pixels_per_point
    ∧ ((sampleCtx.render_frame (samplePlatform 2) (samplePlatform 2)
          sampleViewports 1).2.2.2.graph_target_resolution
        = (ratToU32 (sampleViewports.node_graph.rect.size.x *
              (samplePlatform 2).context.pixels_per_point),
           ratToU32 (sampleViewports.node_graph.rect.size.y *
              (samplePlatform 2).context.pixels_per_point))
      ∧ (sampleCtx.render_frame (samplePlatform 2) (samplePlatform 2)
          sampleViewports 1).2.2.2.graph_target_resolution
        = (sampleCtx.render_frame (samplePlatform 2) (samplePlatform 2)
            sampleViewports 2).2.2.2.graph_target_resolution)
    ∧ (sampleCtx.render_frame (samplePlatform 2) (samplePlatform 2)
        sampleViewports 1).2.2.2.graph_target_resolution = (1600, 1200) :=
  ⟨by norm_num, by norm_num, by norm_num [samplePlatform],
   graph_target_resolution_trunc_and_zoom_invariant sampleCtx
     (samplePlatform 2) (samplePlatform 2) sampleViewports 1 2
     (by norm_num) (by norm_num) (by norm_num [samplePlatform]),
   by
    have h : (sampleCtx.render_frame (samplePlatform 2) (samplePlatform 2)
        sampleViewports 1).2.2.2.graph_target_resolution
        = (ratToU32 (((800 : ℚ) - 0) * 2), ratToU32 (((600 : ℚ) - 0) * 2)) :=
      rfl
    rw [h, ratToU32_eval _ 1600 (by norm_num) (by norm_num) (by norm_num),
      ratToU32_eval _ 1200 (by norm_num) (by norm_num) (by norm_num)]⟩

/-- C1 counterexample: with a node-graph panel `400.5` points wide and
`pixels_per_point = 1`, the declared off-screen width is the truncated
`400`, not `round(400.5) = 401` as the claim's round-to-integers states. -/
theorem graph_target_resolution_round_counterexample :
    ¬ (((sampleCtx.render_frame (samplePlatform 1) (samplePlatform 1)
          cexViewports 1).2.2.2.graph_target_resolution.1 : ℤ)
        = (graphTargetResolutionSpec cexViewports.node_graph.rect.size
            (samplePlatform 1).context.pixels_per_point).1) := by
  have h : (sampleCtx.render_frame (samplePlatform 1) (samplePlatform 1)
      cexViewports 1).2.2.2.graph_target_resolution.1
      = ratToU32 (((801 : ℚ) / 2 - 0) * 1) := rfl
  have h2 : ratToU32 (((801 : ℚ) / 2 - 0) * 1) = 400 :=
    ratToU32_eval _ 400 (by norm_num) (by norm_num) (by norm_num)
  have h3 : (graphTargetResolutionSpec cexViewports.node_graph.rect.size
      (samplePlatform 1).context.pixels_per_point).1
      = round (((801 : ℚ) / 2 - 0) * 1) := rfl
  have h4 : round (((801 : ℚ) / 2 - 0) * 1) = 401 := by
    rw [round_eq, Int.floor_eq_iff]
    constructor <;> norm_num
  rw [h, h2, h3, h4]
  norm_num

/-- C2: the UI scale reported to the nested graph context by
`render_frame` (the value handed to `set_pixels_per_point`) is exactly
`1 / zoom_level`. -/
theorem reported_scale_eq_inv_zoom (s : RenderContext)
    (main graph : Platform) (vp : AppViewports) (zoom : ℚ)
    (hz : 0 < zoom) :
    (s.render_frame main graph vp zoom).2.2.2.reported_scale = 1 / zoom :=
  rfl

/-- C2 witness: at `zoom_level = 2` the reported scale is `1 / 2` (and the
spec's `zoom_level = 1` case gives `1`). -/
theorem reported_scale_eq_inv_zoom_witness :
    (0 : ℚ) < 2
    ∧ (sampleCtx.render_frame (samplePlatform 1) (samplePlatform 1)
        sampleViewports 2).2.2.2.reported_scale = 1 / 2 :=
  ⟨by norm_num,
   reported_scale_eq_inv_zoom sampleCtx (samplePlatform 1) (samplePlatform 1)
     sampleViewports 2 (by norm_num)⟩

/-- C3 (amended): `render_frame` recomputes the camera aspect every call
as `width / height` of the 3D viewport rectangle it is given (independent
of any previously stored aspect), but `on_resize(width, height)` sets the
aspect to `width / height * 2.0`, not `width / height`. -/
theorem aspect_formulas (s : RenderContext) (main graph : Platform)
    (vp : AppViewports) (zoom : ℚ) (w h : ℕ) :
    (s.render_frame main graph vp zoom).1.renderer.aspect
        = vp.view_3d.rect.size.x / vp.view_3d.rect.size.y
    ∧ (s.render_frame main graph vp zoom).2.2.2.aspect_set
        = vp.view_3d.rect.size.x / vp.view_3d.rect.size.y
    ∧ (s.on_resize w h).renderer.aspect = (w : ℚ) / (h : ℚ) * 2 :=
  ⟨rfl, rfl, rfl⟩

/-- C3 counterexample: `on_resize(800, 600)` stores aspect
`800 / 600 * 2 = 8/3`, not `800 / 600 = 4/3` as the claim states. -/
theorem on_resize_aspect_counterexample :
    (sampleCtx.on_resize 800 600).renderer.aspect ≠ (800 : ℚ) / 600 := by
  show ((800 : ℕ) : ℚ) / ((600 : ℕ) : ℚ) * 2 ≠ (800 : ℚ) / 600
  norm_num

/-- C4: with panel layout and `pixels_per_point` held fixed, increasing
`zoom_level` strictly decreases the reported scale `1 / zoom_level` and
strictly increases the clip-rectangle correction factor passed to
`add_sub_ui_to_graph` (which equals `zoom_level`). -/
theorem zoom_monotonicity (s : RenderContext) (main graph : Platform)
    (vp : AppViewports) (zoom zoom' : ℚ) (hz : 0 < zoom)
    (hzz : zoom < zoom') :
    (s.render_frame main graph vp zoom').2.2.2.reported_scale
        < (s.render_frame main graph vp zoom).2.2.2.reported_scale
    ∧ (s.render_frame main graph vp zoom).2.2.2.clip_correction
        < (s.render_frame main graph vp zoom').2.2.2.clip_correction := by
  constructor
  · show (1 : ℚ) / zoom' < 1 / zoom
    exact one_div_lt_one_div_of_lt hz hzz
  · show zoom < zoom'
    exact hzz

/-- C4 witness: going from `zoom_level = 1` to `zoom_level = 2` the
reported scale drops and the clip correction factor rises. -/
theorem zoom_monotonicity_witness :
    (0 : ℚ) < 1 ∧ (1 : ℚ) < 2
    ∧ ((sampleCtx.render_frame (samplePlatform 1) (samplePlatform 1)
          sampleViewports 2).2.2.2.reported_scale
        < (sampleCtx.render_frame (samplePlatform 1) (samplePlatform 1)
            sampleViewports 1).2.2.2.reported_scale
      ∧ (sampleCtx.render_frame (samplePlatform 1) (samplePlatform 1)
          sampleViewports 1).2.2.2.clip_correction
        < (sampleCtx.render_frame (samplePlatform 1) (samplePlatform 1)
            sampleViewports 2).2.2.2.clip_correction) :=
  ⟨by norm_num, by norm_num,
   zoom_monotonicity sampleCtx (samplePlatform 1) (samplePlatform 1)
     sampleViewports 1 2 (by norm_num) (by norm_num)⟩

/-- C5 (code bug, evaluated at the failing input): rendering a frame at
`zoom_level = 2` when the nested context still runs at the previous
frame's scale `1`: `set_pixels_per_point(1/2)` is issued before
tessellation in program order, yet the frame's primitives are tessellated
at the stale scale `1`, not the reported `1/2`; the staged value only
becomes active at the next frame start — the one-frame lag the source
comment (render_context.rs lines 242-245) documents. -/
theorem set_pixels_per_point_lag :
    (sampleCtx.render_frame (samplePlatform 1) (samplePlatform 1)
        sampleViewports 2).2.2.2.reported_scale = 1 / 2
    ∧ (sampleCtx.render_frame (samplePlatform 1) (samplePlatform 1)
        sampleViewports 2).2.2.2.graph_tessellation_scale = 1
    ∧ (sampleCtx.render_frame (samplePlatform 1) (samplePlatform 1)
          sampleViewports 2).2.2.2.graph_tessellation_scale
        ≠ (sampleCtx.render_frame (samplePlatform 1) (samplePlatform 1)
            sampleViewports 2).2.2.2.reported_scale
    ∧ ((sampleCtx.render_frame (samplePlatform 1) (samplePlatform 1)
          sampleViewports 2).2.2.1.context.begin_frame).pixels_per_point
        = 1 / 2 :=
  ⟨rfl, rfl, by show (1 : ℚ) ≠ 1 / 2; norm_num, rfl⟩

/-- C6: `clear_objects` empties the tracked object-handle list — also
after a prior `add_mesh_as_object` — and leaves the lights list, the
renderer (camera included) and every other `RenderContext` field
unchanged. -/
theorem clear_objects_effects (s : RenderContext) (m : Mesh) :
    s.clear_objects.objects = []
    ∧ s.clear_objects.lights = s.lights
    ∧ s.clear_objects.renderer = s.renderer
    ∧ s.clear_objects.main_egui_routine = s.main_egui_routine
    ∧ s.clear_objects.graph_egui_routine = s.graph_egui_routine
    ∧ s.clear_objects.surface_config = s.surface_config
    ∧ s.clear_objects.texture_format = s.texture_format
    ∧ ((s.add_mesh_as_object m).1.clear_objects).objects = [] :=
  ⟨rfl, rfl, rfl, rfl, rfl, rfl, rfl, rfl⟩

/-- C7 (amended): `add_mesh_as_object` uploads the mesh, uploads the
albedo-only default material, registers an object with identity world
transform, and appends the resulting object handle to the registry's
object list (length grows by exactly one) — but the Rust function's
return type is `()`: the handle is recorded, not returned. -/
theorem add_mesh_as_object_effects (s : RenderContext) (mesh : Mesh) :
    (s.add_mesh_as_object mesh).1.renderer.meshes = s.renderer.meshes ++ [mesh]
    ∧ (s.add_mesh_as_object mesh).1.renderer.materials
        = s.renderer.materials ++ [default_red_material]
    ∧ (s.add_mesh_as_object mesh).1.renderer.objects
        = s.renderer.objects ++
            [{ mesh := s.renderer.meshes.length
               material := s.renderer.materials.length
               transform := Mat4.identity }]
    ∧ (s.add_mesh_as_object mesh).1.objects
        = s.objects ++ [s.renderer.objects.length]
    ∧ (s.add_mesh_as_object mesh).1.objects.length = s.objects.length + 1
    ∧ (s.add_mesh_as_object mesh).2 = () := by
  refine ⟨rfl, rfl, rfl, rfl, ?_, rfl⟩
  simp [RenderContext.add_mesh_as_object]

/-- C7 counterexample: no caller-side function can recover the recorded
object handle from what `add_mesh_as_object` returns, because the return
value is `()` while the recorded handle varies with the registry state
(`0` from `sampleCtx`, `1` from `sampleCtx2`). -/
theorem add_mesh_as_object_return_counterexample :
    ¬ ∃ recover : Unit → ℕ, ∀ (s : RenderContext) (mesh : Mesh),
        (s.add_mesh_as_object mesh).1.objects.getLast?
          = some (recover (s.add_mesh_as_object mesh).2) := by
  rintro ⟨recover, hrec⟩
  have h1 := hrec sampleCtx ⟨0⟩
  have h2 := hrec sampleCtx2 ⟨0⟩
  have e1 : (sampleCtx.add_mesh_as_object ⟨0⟩).1.objects.getLast? = some 0 := by
    decide
  have e2 : (sampleCtx2.add_mesh_as_object ⟨0⟩).1.objects.getLast? = some 1 := by
    decide
  have u1 : (sampleCtx.add_mesh_as_object ⟨0⟩).2 = () := rfl
  have u2 : (sampleCtx2.add_mesh_as_object ⟨0⟩).2 = () := rfl
  rw [e1, u1] at h1
  rw [e2, u2] at h2
  rw [← h1] at h2
  exact absurd h2 (by decide)

/-- C8 (amended): `project_point` applies the view-projection, flips the
clip-space `y`, maps `[-1, 1]` to `[0, 1]` and scales by the screen size;
with an identity view it sends every point `(0, 0, z)` with `z ≠ 0` on the
camera axis to the exact center of the screen — but the world origin
itself has clip-space `w = 0` (it lies in the camera plane), so dividing
by `w` produces no finite result (NaN in `f32`), not the center.  The
method reads the camera state and mutates nothing. -/
theorem project_point_axis_center (s : RenderContext) (f : ℚ)
    (screen_size : Vec2) (z : ℚ)
    (hview : s.renderer.camera.view = Mat4.identity) (hz : z ≠ 0) :
    s.project_point f ⟨0, 0, z⟩ screen_size
        = some ⟨screen_size.x / 2, screen_size.y / 2⟩
    ∧ s.project_point f ⟨0, 0, 0⟩ screen_size = none := by
  refine ⟨?_, project_point_origin_zero_w s f screen_size hview⟩
  simp [RenderContext.project_point, Renderer.view_proj, hview,
    perspective_infinite_reverse_lh, Mat4.mul, Mat4.mulVec4, Mat4.identity,
    Mat4.projectPoint3, hz]
  constructor <;> ring

/-- C8 witness: with the camera set to the identity view, the on-axis
point `(0, 0, 1)` projects to the center `(400, 300)` of an `800 x 600`
screen, while the world origin projects to no finite point. -/
theorem project_point_axis_center_witness :
    (sampleCtx.set_camera Mat4.identity).renderer.camera.view = Mat4.identity
    ∧ (1 : ℚ) ≠ 0
    ∧ ((sampleCtx.set_camera Mat4.identity).project_point 1 ⟨0, 0, 1⟩ ⟨800, 600⟩
          = some ⟨400, 300⟩
        ∧ (sampleCtx.set_camera Mat4.identity).project_point 1 ⟨0, 0, 0⟩
            ⟨800, 600⟩ = none) := by
  refine ⟨rfl, by norm_num, ?_⟩
  have h := project_point_axis_center (sampleCtx.set_camera Mat4.identity) 1
    ⟨800, 600⟩ 1 rfl (by norm_num)
  norm_num at h
  exact h

/-- C8 counterexample: whatever the half-fov cotangent is, projecting the
world origin under an identity view never returns the screen center
`(400, 300)` of an `800 x 600` screen — the clip-space `w` is `0` there. -/
theorem project_point_origin_counterexample :
    ¬ ∃ f : ℚ, (sampleCtx.set_camera Mat4.identity).project_point f ⟨0, 0, 0⟩
        ⟨800, 600⟩ = some ⟨400, 300⟩ := by
  rintro ⟨f, hf⟩
  rw [project_point_origin_zero_w (sampleCtx.set_camera Mat4.identity) f
    ⟨800, 600⟩ rfl] at hf
  exact Option.noConfusion hf

/-- C9: `on_resize` is idempotent — repeating it with the same width and
height reproduces the identical surface configuration (format, size,
present mode) and the identical aspect, indeed the identical state. -/
theorem on_resize_idempotent (s : RenderContext) (w h : ℕ) :
    (s.on_resize w h).on_resize w h = s.on_resize w h :=
  rfl

/-- C10: `render_frame` never touches the registry lists: the tracked
object handles, the tracked light handles, and the renderer-side object
and light arenas are identical before and after the call, for every
starting state and every input. -/
theorem render_frame_preserves_registry (s : RenderContext)
    (main graph : Platform) (vp : AppViewports) (zoom : ℚ) :
    (s.render_frame main graph vp zoom).1.objects = s.objects
    ∧ (s.render_frame main graph vp zoom).1.lights = s.lights
    ∧ (s.render_frame main graph vp zoom).1.renderer.objects
        = s.renderer.objects
    ∧ (s.render_frame main graph vp zoom).1.renderer.lights
        = s.renderer.lights :=
  ⟨rfl, rfl, rfl, rfl⟩

end Blackjack
